import Mathlib

/-!
Verification of the enclave-ts client-side resilience layer.

This file shallowly embeds the two core components of the repository:

* `WebSocketClient` (src/src/client/websocket/WebSocketClient.ts): the
  streaming connection manager with its subscription registry (a JS
  `Map<string, Set<MessageHandler>>`), heartbeat timer, reconnect
  scheduler and inbound message dispatch.
* `EnclaveClient.request` (src/src/client/EnclaveClient.ts): the
  request executor with its 429 retry loop, together with
  `EnclaveApiError` (the error class with the truncated-body message).

Handlers are modelled by numeric identities (JS `Set` collapses
handlers by identity); handler behaviour is an environment mapping a
handler identity and a payload to `Except` (a raised error or normal
return).  JS `Map` iteration order is insertion order, modelled by an
association list where updates keep the position of an existing key and
new keys are appended.  JS truthiness of optional strings (`market ?
... : ...`) is modelled explicitly: `none` and the empty string are
falsy.  Timers are modelled as enabledness flags plus explicit timer
events; wall-clock values and the crypto signature inside the auth
control frame are abstracted (the auth frame is a single constructor).
-/

/-! ### Character-level split, mirroring JS String.prototype.split(':') -/

/-- Splits a character list at every colon, as JS `key.split(':')` does
(the result always has at least one, possibly empty, part). -/
def splitCharList : List Char → List (List Char)
  | [] => [[]]
  | c :: cs =>
    if c = ':' then [] :: splitCharList cs
    else
      match splitCharList cs with
      | [] => [[c]]
      | p :: ps => (c :: p) :: ps

/-- `key.split(':')` on strings: split the character data and repack. -/
def splitColon (s : String) : List String :=
  (splitCharList s.data).map String.mk

/-! ### Subscription registry: `Map<string, Set<MessageHandler>>` -/

/-- `Set.add`: appends the handler unless it is already present
(identity-collapsed, insertion order preserved). -/
def setAdd (hs : List Nat) (h : Nat) : List Nat :=
  if h ∈ hs then hs else hs ++ [h]

/-- `Set.delete`: removes the handler from the set. -/
def setRemove (hs : List Nat) (h : Nat) : List Nat :=
  hs.filter (fun x => x ≠ h)

/-- `subscribe`'s registry update: `if (!map.has(key)) map.set(key, new Set());
map.get(key)!.add(handler)`.  An existing key keeps its position, a new
key is appended (JS `Map` iteration order). -/
def registryAdd : List (String × List Nat) → String → Nat → List (String × List Nat)
  | [], key, h => [(key, [h])]
  | (k, hs) :: rest, key, h =>
    if k = key then (k, setAdd hs h) :: rest
    else (k, hs) :: registryAdd rest key h

/-- `Map.delete(key)`: removes the (unique) entry for the key. -/
def registryDelete : List (String × List Nat) → String → List (String × List Nat)
  | [], _ => []
  | (k, hs) :: rest, key => if k = key then rest else (k, hs) :: registryDelete rest key

/-- `unsubscribe`'s per-handler branch: `handlers.delete(handler);
if (handlers.size === 0) map.delete(key)`. -/
def registryRemoveHandler : List (String × List Nat) → String → Nat → List (String × List Nat)
  | [], _, _ => []
  | (k, hs) :: rest, key, h =>
    if k = key then
      let hs' := setRemove hs h
      if hs' = [] then rest else (k, hs') :: rest
    else (k, hs) :: registryRemoveHandler rest key h

/-- `Map.get(key)`: the handler set registered for a key, if any. -/
def registryFind : List (String × List Nat) → String → Option (List Nat)
  | [], _ => none
  | (k, hs) :: rest, key => if k = key then some hs else registryFind rest key

/-! ### Wire-level control messages and client state -/

/-- Outbound wire-level control messages of the streaming path
(`{op: "auth", ...}`, `{op: "subscribe", channel, market?}`,
`{op: "unsubscribe", channel, market?}`).  The `market` field is
present exactly when the JS code attaches it (truthy market). -/
inductive WireMsg where
  | authMsg
  | subMsg (channel : String) (market : Option String)
  | unsubMsg (channel : String) (market : Option String)
deriving DecidableEq, Repr

/-- Immutable part of `WebSocketConfig` (after constructor defaulting).
`config.reconnect` is mutable (set to false by `disconnect`) and
therefore lives in the state. -/
structure WSConfig where
  hasAuth : Bool
  reconnect : Bool
  reconnectDelay : Nat
  maxReconnectAttempts : Nat
deriving DecidableEq, Repr

/-- Mutable fields of `WebSocketClient`.  `wsExists`/`wsOpen` model the
`ws` field being set / the socket `readyState === OPEN`; scheduled
reconnect timers are modelled by identity, because `scheduleReconnect`
assigns a fresh `setTimeout` handle to `this.reconnectTimeout` without
clearing a still-pending one: `reconnectTimeout` is the timer id the
field currently references (a stale reference to a spent or cleared
timer is possible, as in the source), `liveTimers` holds the ids of all
scheduled reconnect timers that have neither fired nor been cleared
(including orphans no longer referenced by the field), and `nextTimer`
supplies fresh ids; `heartbeatOn` models a live `heartbeatInterval`;
`cfgReconnect` is the mutable `config.reconnect` flag. -/
structure WSState where
  subscriptions : List (String × List Nat)
  isConnected : Bool
  reconnectAttempts : Nat
  heartbeatOn : Bool
  sequenceNumber : Nat
  reconnectTimeout : Option Nat
  liveTimers : List Nat
  nextTimer : Nat
  wsExists : Bool
  wsOpen : Bool
  cfgReconnect : Bool
deriving DecidableEq, Repr

/-- State after the constructor runs. -/
def initState (cfg : WSConfig) : WSState :=
  { subscriptions := []
    isConnected := false
    reconnectAttempts := 0
    heartbeatOn := false
    sequenceNumber := 0
    reconnectTimeout := none
    liveTimers := []
    nextTimer := 0
    wsExists := false
    wsOpen := false
    cfgReconnect := cfg.reconnect }

/-- `send`: delivers the message only when `ws.readyState === OPEN`. -/
def send (s : WSState) (w : WireMsg) : List WireMsg :=
  if s.wsOpen then [w] else []

/-- `getSubscriptionKey`: `market ? channel + ":" + market : channel`
(JS truthiness: an absent or empty market yields the bare channel). -/
def getSubscriptionKey (channel : String) (market : Option String) : String :=
  match market with
  | some m => if m = "" then channel else channel ++ ":" ++ m
  | none => channel

/-- The `market` field actually attached to a subscribe/unsubscribe
frame: `if (market) message.market = market`. -/
def marketField : Option String → Option String
  | some m => if m = "" then none else some m
  | none => none

/-- `sendSubscribe`: builds the `{op: "subscribe", channel, market?}` frame. -/
def sendSubscribeMsg (channel : String) (market : Option String) : WireMsg :=
  WireMsg.subMsg channel (marketField market)

/-- `sendUnsubscribe`: builds the `{op: "unsubscribe", channel, market?}` frame. -/
def sendUnsubscribeMsg (channel : String) (market : Option String) : WireMsg :=
  WireMsg.unsubMsg channel (marketField market)

/-- One step of `resubscribeAll`: `const [channel, market] = key.split(':')`
then `sendSubscribe(channel, market)` (the destructuring takes the first
two parts; a missing second part is `undefined`). -/
def resubscribeMsg (key : String) : WireMsg :=
  let parts := splitColon key
  sendSubscribeMsg (parts.headD "") parts[1]?

/-- `resubscribeAll`: replays one subscribe frame per registered key, in
registry (insertion) order, through `send`. -/
def resubscribeAll (s : WSState) : List WireMsg :=
  s.subscriptions.flatMap (fun e => send s (resubscribeMsg e.1))

/-- `subscribe(channel, handler, market?)`: registers the handler, then
sends a wire-level subscribe if currently connected. -/
def subscribe (s : WSState) (channel : String) (handler : Nat) (market : Option String) :
    WSState × List WireMsg :=
  let key := getSubscriptionKey channel market
  let s' := { s with subscriptions := registryAdd s.subscriptions key handler }
  (s', if s'.isConnected then send s' (sendSubscribeMsg channel market) else [])

/-- `unsubscribe(channel, handler?, market?)`: removes a handler (or the
whole entry when no handler is given), then sends a wire-level
unsubscribe if connected and the key is gone. -/
def unsubscribe (s : WSState) (channel : String) (handler : Option Nat) (market : Option String) :
    WSState × List WireMsg :=
  let key := getSubscriptionKey channel market
  let subs' :=
    match handler with
    | none => registryDelete s.subscriptions key
    | some h => registryRemoveHandler s.subscriptions key h
  let s' := { s with subscriptions := subs' }
  (s', if s'.isConnected ∧ registryFind subs' key = none
       then send s' (sendUnsubscribeMsg channel market) else [])

/-- `connect()` up to the handshake: `this.ws = new WebSocket(wsUrl)`
(a fresh socket exists but is not yet open). -/
def connectCall (s : WSState) : WSState :=
  { s with wsExists := true, wsOpen := false }

/-- The `'open'` handler: set connected, zero the reconnect counter,
start the heartbeat, send the auth control frame when credentials are
configured, then replay every registered subscription key. -/
def openEvent (cfg : WSConfig) (s : WSState) : WSState × List WireMsg :=
  let s' := { s with isConnected := true, wsOpen := true,
                     reconnectAttempts := 0, heartbeatOn := true }
  (s', (if cfg.hasAuth then send s' WireMsg.authMsg else []) ++ resubscribeAll s')

/-- `scheduleReconnect`'s delay:
`reconnectDelay * 2 ^ min(reconnectAttempts - 1, 5)` (computed after the
attempt counter was incremented). -/
def reconnectBackoffDelay (cfg : WSConfig) (attempts : Nat) : Nat :=
  cfg.reconnectDelay * 2 ^ min (attempts - 1) 5

/-- `scheduleReconnect`: increments the attempt counter and overwrites
`this.reconnectTimeout` with a freshly scheduled timer, WITHOUT
clearing the previously referenced timer - if that one is still
pending it stays live as an orphan, exactly as in the source. -/
def scheduleReconnect (s : WSState) : WSState :=
  { s with reconnectAttempts := s.reconnectAttempts + 1,
           reconnectTimeout := some s.nextTimer,
           liveTimers := s.liveTimers ++ [s.nextTimer],
           nextTimer := s.nextTimer + 1 }

/-- The `'close'` handler: drop connected state, stop the heartbeat, and
schedule a reconnect when reconnection is still enabled and the attempt
budget remains. -/
def closeEvent (cfg : WSConfig) (s : WSState) : WSState :=
  let s1 := { s with isConnected := false, wsOpen := false, heartbeatOn := false }
  if s1.cfgReconnect ∧ s1.reconnectAttempts < cfg.maxReconnectAttempts then
    scheduleReconnect s1
  else s1

/-- `disconnect()`: disable reconnection, clear the reconnect timer the
`reconnectTimeout` field currently references (`if (this.reconnectTimeout)
clearTimeout(this.reconnectTimeout)` - an orphaned timer no longer
referenced by the field is NOT cleared), stop the heartbeat, close and
drop the socket. -/
def disconnect (s : WSState) : WSState :=
  { s with cfgReconnect := false,
           liveTimers :=
             match s.reconnectTimeout with
             | some id => s.liveTimers.filter (fun t => t ≠ id)
             | none => s.liveTimers,
           heartbeatOn := false,
           wsExists := false, wsOpen := false, isConnected := false }

/-! ### Inbound message handling -/

/-- An inbound frame `{channel, type, data, sequence?}`.  The opaque
`data` value is represented by `payload` together with the two fields
the client projects out of it: `data.market` (for key derivation) and
`data.message` (for error frames). -/
structure WSMessage where
  channel : String
  type : String
  dataMarket : Option String
  dataErrorMessage : Option String
  payload : String
  sequence : Option Nat
deriving DecidableEq, Repr

/-- Observable actions of `handleMessage`: emitted client events plus a
record of each handler invocation (`handled h p` means handler `h` ran
to completion on payload `p`; `handlerErrorEvt h e` means handler `h`
raised `e`, which was caught and re-emitted as an `'error'` event). -/
inductive ClientEvent where
  | subscribedEvt
  | unsubscribedEvt
  | errorEvt (msg : String)
  | handled (h : Nat) (payload : String)
  | handlerErrorEvt (h : Nat) (err : String)
  | messageEvt
deriving DecidableEq, Repr

/-- The `handlers.forEach` loop with its per-handler `try`/`catch`: a
raised error is recorded and the loop continues with the next handler. -/
def dispatchLoop (hbeh : Nat → String → Except String Unit) (p : String) :
    List Nat → List ClientEvent
  | [] => []
  | h :: rest =>
    match hbeh h p with
    | .ok _ => .handled h p :: dispatchLoop hbeh p rest
    | .error e => .handlerErrorEvt h e :: dispatchLoop hbeh p rest

/-- `handleMessage`: control frames (`subscribed`/`unsubscribed`/`error`)
are emitted as events and return early; any other frame is routed to
the handlers of the key derived from its channel and embedded market,
then the sequence counter is overwritten when the frame carries a
truthy (nonzero) sequence, and a raw `'message'` event is emitted. -/
def handleMessage (hbeh : Nat → String → Except String Unit) (s : WSState) (m : WSMessage) :
    WSState × List ClientEvent :=
  if m.type = "subscribed" then (s, [.subscribedEvt])
  else if m.type = "unsubscribed" then (s, [.unsubscribedEvt])
  else if m.type = "error" then (s, [.errorEvt (m.dataErrorMessage.getD "Unknown error")])
  else
    let key := getSubscriptionKey m.channel m.dataMarket
    let evs :=
      match registryFind s.subscriptions key with
      | some hs => dispatchLoop hbeh m.payload hs
      | none => []
    let s' :=
      match m.sequence with
      | some n => if n = 0 then s else { s with sequenceNumber := n }
      | none => s
    (s', evs ++ [.messageEvt])

/-! ### Timer and transport events after `disconnect` -/

/-- Spontaneous (non-user-initiated) events: timer ticks and transport
callbacks. -/
inductive SpontEvent where
  | heartbeatTick
  | reconnectTimerFire (id : Nat)
  | transportOpen
  | transportClose
deriving DecidableEq, Repr

/-- Actions the claims quantify over: a heartbeat probe (`ws.ping()`)
and a reconnect attempt (the scheduled `connect()` call). -/
inductive FiredAction where
  | heartbeatProbe
  | reconnectAttempt
deriving DecidableEq, Repr

/-- Effect of one spontaneous event: the heartbeat timer only runs while
set, and pings only an open socket; a scheduled reconnect timer fires
only while it is live (not yet fired or cleared), is then spent, and
its callback calls `connect()` unconditionally; an `'open'` can only
fire on an existing, not-yet-open socket; a `'close'` can arrive at any
time (also from an old socket). -/
def spontStep (cfg : WSConfig) (s : WSState) : SpontEvent → WSState × List FiredAction
  | .heartbeatTick =>
    if s.heartbeatOn then (s, if s.wsOpen then [.heartbeatProbe] else []) else (s, [])
  | .reconnectTimerFire id =>
    if id ∈ s.liveTimers then
      (connectCall { s with liveTimers := s.liveTimers.filter (fun t => t ≠ id) },
       [.reconnectAttempt])
    else (s, [])
  | .transportOpen =>
    if s.wsExists ∧ s.wsOpen = false then ((openEvent cfg s).1, []) else (s, [])
  | .transportClose => (closeEvent cfg s, [])

/-- A sequence of spontaneous events, collecting all fired actions. -/
def spontTrace (cfg : WSConfig) (s : WSState) : List SpontEvent → WSState × List FiredAction
  | [] => (s, [])
  | e :: es =>
    let r := spontStep cfg s e
    let r' := spontTrace cfg r.1 es
    (r'.1, r.2 ++ r'.2)

/-! ### Registry operation sequences -/

/-- A user-level registry operation: one `subscribe` or `unsubscribe` call. -/
inductive RegOp where
  | sub (channel : String) (handler : Nat) (market : Option String)
  | unsub (channel : String) (handler : Option Nat) (market : Option String)
deriving DecidableEq, Repr

/-- Applies one registry operation to the client state. -/
def applyRegOp (s : WSState) : RegOp → WSState
  | .sub c h m => (subscribe s c h m).1
  | .unsub c h m => (unsubscribe s c h m).1

/-- Applies a sequence of subscribe/unsubscribe calls. -/
def applyRegOps (s : WSState) (ops : List RegOp) : WSState :=
  ops.foldl applyRegOp s

/-- The registry invariants: keys are unique, and every entry holds a
nonempty, identity-deduplicated handler set. -/
def goodRegistry (r : List (String × List Nat)) : Prop :=
  (r.map Prod.fst).Nodup ∧ ∀ e ∈ r, e.2 ≠ [] ∧ e.2.Nodup

instance : DecidablePred goodRegistry := fun r => by
  unfold goodRegistry; infer_instance

/-! ### Request executor (`EnclaveClient.request`) and `EnclaveApiError` -/

/-- The fields `request` projects out of a parsed JSON response body:
`parsed.error` and `parsed.message`. -/
structure ParsedBody where
  errorField : Option String
  messageField : Option String
deriving DecidableEq, Repr

/-- Outcome of one network attempt as observed by the handlers in
`request`: an HTTP response (with status, raw body, and the result of
`JSON.parse` on the body - `Except.error` carries the stringified parse
exception), a request-level `'error'` event, or the `'timeout'` event. -/
inductive AttemptOutcome where
  | response (status : Nat) (body : String) (parse : Except String ParsedBody)
  | transportError (msg : String)
  | timeout
deriving Repr

/-- `responseBody.substring(0, 200)` plus an ellipsis marker when the
body was longer than 200 characters. -/
def truncatedResponse (body : String) : String :=
  String.mk (body.data.take 200) ++ (if 200 < body.data.length then "..." else "")

/-- The enhanced message built by the `EnclaveApiError` constructor; a
zero status and an empty body are falsy in JS and omit their lines. -/
def enhancedMessage (message endpoint method : String) (statusCode : Option Nat)
    (responseBody : Option String) : String :=
  "Enclave API Error: " ++ message ++ "\n" ++
  "  Endpoint: " ++ method ++ " " ++ endpoint ++ "\n" ++
  (match statusCode with
   | some c => if c = 0 then "" else "  Status Code: " ++ toString c ++ "\n"
   | none => "") ++
  (match responseBody with
   | some b => if b = "" then "" else "  Response: " ++ truncatedResponse b
   | none => "")

/-- The `EnclaveApiError` object: `name`, the enhanced `message`, and
the stored context fields. -/
structure EnclaveApiError where
  name : String
  message : String
  endpoint : String
  method : String
  statusCode : Option Nat
  responseBody : Option String
deriving DecidableEq, Repr

/-- `new EnclaveApiError(message, endpoint, method, statusCode?, responseBody?)`. -/
def EnclaveApiError.make (message endpoint method : String) (statusCode : Option Nat)
    (responseBody : Option String) : EnclaveApiError :=
  { name := "EnclaveApiError"
    message := enhancedMessage message endpoint method statusCode responseBody
    endpoint := endpoint
    method := method
    statusCode := statusCode
    responseBody := responseBody }

/-- Settled result of a `request` call chain: a 2xx resolution, a
rejection with an `EnclaveApiError`, a rejection with the underlying
transport error (retry ceiling exceeded), or the timeout rejection
`new Error("Request timeout after " + timeout + "ms")`. -/
inductive ReqResult where
  | success (body : String)
  | apiError (e : EnclaveApiError)
  | transportFailure (msg : String)
  | timedOut (timeoutMs : Nat)
deriving DecidableEq, Repr

/-- Configuration consumed by `request` (constructor-defaulted
`maxRetries`, `retryDelay`, `timeout`). -/
structure ReqConfig where
  maxRetries : Nat
  retryDelay : Nat
  timeoutMs : Nat
deriving DecidableEq, Repr

/-- `this.retryDelay * Math.pow(2, attempt - 1)`. -/
def backoffDelay (cfg : ReqConfig) (attempt : Nat) : Nat :=
  cfg.retryDelay * 2 ^ (attempt - 1)

/-- The terminal part of the `'end'` handler (reached when no retry is
scheduled): the missing-status-code guard, `JSON.parse` of a nonempty
body (a parse exception is caught and wrapped), the 2xx resolution, and
the non-success rejection with
`parsed.error ?? parsed.message ?? data`. -/
def requestStep (path method : String) (st : Nat) (body : String)
    (parse : Except String ParsedBody) : ReqResult :=
  if st = 0 then
    let inner := EnclaveApiError.make "No status code received" path method none none
    .apiError (.make ("Failed to parse response: " ++ inner.name ++ ": " ++ inner.message)
      path method (some st) (some body))
  else
    match (if body = "" then .ok ⟨none, none⟩ else parse : Except String ParsedBody) with
    | .error e =>
      .apiError (.make ("Failed to parse response: " ++ e) path method (some st) (some body))
    | .ok p =>
      if 200 ≤ st ∧ st < 300 then .success body
      else
        .apiError (.make (p.errorField.getD (p.messageField.getD body)) path method
          (some st) (some body))

/-- The `request` recursion from a given attempt number: a 429 response
or a transport `'error'` with `attempt <= maxRetries` re-issues the call
at `attempt + 1` after `retryDelay * 2 ^ (attempt - 1)`; a `'timeout'`
rejects immediately; anything else is settled by `requestStep`.
`outcomes n` is the network outcome of attempt `n`; the result carries
the number of attempts made and the list of backoff delays waited. -/
def requestLoop (cfg : ReqConfig) (outcomes : Nat → AttemptOutcome) (path method : String)
    (attempt : Nat) : ReqResult × Nat × List Nat :=
  match outcomes attempt with
  | .timeout => (.timedOut cfg.timeoutMs, 1, [])
  | .transportError msg =>
    if h : attempt ≤ cfg.maxRetries then
      let r := requestLoop cfg outcomes path method (attempt + 1)
      (r.1, r.2.1 + 1, backoffDelay cfg attempt :: r.2.2)
    else (.transportFailure msg, 1, [])
  | .response st body parse =>
    if h : st = 429 ∧ attempt ≤ cfg.maxRetries then
      let r := requestLoop cfg outcomes path method (attempt + 1)
      (r.1, r.2.1 + 1, backoffDelay cfg attempt :: r.2.2)
    else (requestStep path method st body parse, 1, [])
termination_by cfg.maxRetries + 1 - attempt
decreasing_by all_goals omega

/-- A full `request(method, path, body)` call chain (attempts start at 1). -/
def request (cfg : ReqConfig) (outcomes : Nat → AttemptOutcome) (path method : String) :
    ReqResult × Nat × List Nat :=
  requestLoop cfg outcomes path method 1

/-! ### Helper lemmas: dispatch loop -/

lemma dispatchLoop_length (hbeh : Nat → String → Except String Unit) (p : String)
    (hs : List Nat) : (dispatchLoop hbeh p hs).length = hs.length := by
  induction hs with
  | nil => rfl
  | cons h rest ih => cases hb : hbeh h p <;> simp [dispatchLoop, hb, ih]

lemma dispatchLoop_mem_ok (hbeh : Nat → String → Except String Unit) (p : String)
    (hs : List Nat) (h : Nat) (hmem : h ∈ hs) (hok : hbeh h p = .ok ()) :
    ClientEvent.handled h p ∈ dispatchLoop hbeh p hs := by
  induction hs with
  | nil => simp at hmem
  | cons h0 rest ih =>
    rcases List.mem_cons.mp hmem with rfl | hmem'
    · simp [dispatchLoop, hok]
    · cases hb : hbeh h0 p with
      | ok u => simp only [dispatchLoop, hb, List.mem_cons]; exact Or.inr (ih hmem')
      | error e => simp only [dispatchLoop, hb, List.mem_cons]; exact Or.inr (ih hmem')

lemma dispatchLoop_mem_error (hbeh : Nat → String → Except String Unit) (p : String)
    (hs : List Nat) (h : Nat) (e : String) (hmem : h ∈ hs) (herr : hbeh h p = .error e) :
    ClientEvent.handlerErrorEvt h e ∈ dispatchLoop hbeh p hs := by
  induction hs with
  | nil => simp at hmem
  | cons h0 rest ih =>
    rcases List.mem_cons.mp hmem with rfl | hmem'
    · simp [dispatchLoop, herr]
    · cases hb : hbeh h0 p with
      | ok u => simp only [dispatchLoop, hb, List.mem_cons]; exact Or.inr (ih hmem')
      | error e' => simp only [dispatchLoop, hb, List.mem_cons]; exact Or.inr (ih hmem')

/-! ### Helper lemmas: registry invariants -/

lemma setAdd_ne_nil (hs : List Nat) (h : Nat) : setAdd hs h ≠ [] := by
  unfold setAdd; split
  · rename_i hmem; intro hnil; subst hnil; simp at hmem
  · simp

lemma setAdd_nodup (hs : List Nat) (h : Nat) (hn : hs.Nodup) : (setAdd hs h).Nodup := by
  unfold setAdd; split
  · exact hn
  · rename_i hmem
    simp [List.nodup_append, hn, hmem]

lemma registryAdd_keys_subset (r : List (String × List Nat)) (k : String) (h : Nat) :
    ∀ x ∈ (registryAdd r k h).map Prod.fst, x ∈ r.map Prod.fst ∨ x = k := by
  induction r with
  | nil => simp [registryAdd]
  | cons e rest ih =>
    obtain ⟨k', hs⟩ := e
    by_cases hk : k' = k
    · intro x hx
      simp only [registryAdd, if_pos hk] at hx
      exact Or.inl (by simpa using hx)
    · simp only [registryAdd, if_neg hk, List.map_cons, List.mem_cons]
      rintro x (rfl | hx)
      · exact Or.inl (by simp)
      · rcases ih x hx with h1 | h2
        · exact Or.inl (by simp [h1])
        · exact Or.inr h2

lemma registryAdd_keys_nodup (r : List (String × List Nat)) (k : String) (h : Nat)
    (hn : (r.map Prod.fst).Nodup) : ((registryAdd r k h).map Prod.fst).Nodup := by
  induction r with
  | nil => simp [registryAdd]
  | cons e rest ih =>
    obtain ⟨k', hs⟩ := e
    simp only [List.map_cons, List.nodup_cons] at hn
    obtain ⟨hk'notin, hnrest⟩ := hn
    by_cases hk : k' = k
    · simp only [registryAdd, if_pos hk, List.map_cons, List.nodup_cons]
      exact ⟨hk'notin, hnrest⟩
    · simp only [registryAdd, if_neg hk, List.map_cons, List.nodup_cons]
      refine ⟨?_, ih hnrest⟩
      intro hmem
      rcases registryAdd_keys_subset rest k h k' hmem with h1 | h2
      · exact hk'notin h1
      · exact hk h2

lemma registryAdd_entries (r : List (String × List Nat)) (k : String) (h : Nat)
    (he : ∀ e ∈ r, e.2 ≠ [] ∧ e.2.Nodup) :
    ∀ e ∈ registryAdd r k h, e.2 ≠ [] ∧ e.2.Nodup := by
  induction r with
  | nil =>
    intro e he'
    simp only [registryAdd, List.mem_singleton] at he'
    subst he'; simp
  | cons e0 rest ih =>
    obtain ⟨k', hs⟩ := e0
    have hhead := he (k', hs) (by simp)
    have hrest : ∀ e ∈ rest, e.2 ≠ [] ∧ e.2.Nodup := fun e hm => he e (by simp [hm])
    by_cases hk : k' = k
    · intro e hm
      simp only [registryAdd, if_pos hk, List.mem_cons] at hm
      rcases hm with rfl | hm
      · exact ⟨setAdd_ne_nil hs h, setAdd_nodup hs h hhead.2⟩
      · exact hrest e hm
    · intro e hm
      simp only [registryAdd, if_neg hk, List.mem_cons] at hm
      rcases hm with rfl | hm
      · exact hhead
      · exact ih hrest e hm

lemma registryDelete_sublist (r : List (String × List Nat)) (k : String) :
    List.Sublist (registryDelete r k) r := by
  induction r with
  | nil => simp [registryDelete]
  | cons e rest ih =>
    obtain ⟨k', hs⟩ := e
    by_cases hk : k' = k
    · simp only [registryDelete, if_pos hk]
      exact (List.Sublist.refl rest).cons _
    · simp only [registryDelete, if_neg hk]
      exact ih.cons₂ _

lemma registryRemoveHandler_keys_sublist (r : List (String × List Nat)) (k : String) (h : Nat) :
    List.Sublist ((registryRemoveHandler r k h).map Prod.fst) (r.map Prod.fst) := by
  induction r with
  | nil => simp [registryRemoveHandler]
  | cons e rest ih =>
    obtain ⟨k', hs⟩ := e
    by_cases hk : k' = k
    · by_cases hnil : setRemove hs h = []
      · simp only [registryRemoveHandler, if_pos hk, hnil, if_pos, List.map_cons]
        exact (List.Sublist.refl _).cons _
      · simp only [registryRemoveHandler, if_pos hk, if_neg hnil, List.map_cons]
        exact (List.Sublist.refl _).cons₂ _
    · simp only [registryRemoveHandler, if_neg hk, List.map_cons]
      exact ih.cons₂ _

lemma registryRemoveHandler_entries (r : List (String × List Nat)) (k : String) (h : Nat)
    (he : ∀ e ∈ r, e.2 ≠ [] ∧ e.2.Nodup) :
    ∀ e ∈ registryRemoveHandler r k h, e.2 ≠ [] ∧ e.2.Nodup := by
  induction r with
  | nil => simp [registryRemoveHandler]
  | cons e0 rest ih =>
    obtain ⟨k', hs⟩ := e0
    have hhead := he (k', hs) (by simp)
    have hrest : ∀ e ∈ rest, e.2 ≠ [] ∧ e.2.Nodup := fun e hm => he e (by simp [hm])
    by_cases hk : k' = k
    · by_cases hnil : setRemove hs h = []
      · intro e hm
        simp only [registryRemoveHandler, if_pos hk, hnil, if_pos] at hm
        exact hrest e hm
      · intro e hm
        simp only [registryRemoveHandler, if_pos hk, if_neg hnil, List.mem_cons] at hm
        rcases hm with rfl | hm
        · exact ⟨hnil, hhead.2.filter _⟩
        · exact hrest e hm
    · intro e hm
      simp only [registryRemoveHandler, if_neg hk, List.mem_cons] at hm
      rcases hm with rfl | hm
      · exact hhead
      · exact ih hrest e hm

lemma goodRegistry_add (r : List (String × List Nat)) (k : String) (h : Nat)
    (hg : goodRegistry r) : goodRegistry (registryAdd r k h) :=
  ⟨registryAdd_keys_nodup r k h hg.1, registryAdd_entries r k h hg.2⟩

lemma goodRegistry_delete (r : List (String × List Nat)) (k : String)
    (hg : goodRegistry r) : goodRegistry (registryDelete r k) :=
  ⟨hg.1.sublist ((registryDelete_sublist r k).map Prod.fst),
   fun e hm => hg.2 e ((registryDelete_sublist r k).subset hm)⟩

lemma goodRegistry_removeHandler (r : List (String × List Nat)) (k : String) (h : Nat)
    (hg : goodRegistry r) : goodRegistry (registryRemoveHandler r k h) :=
  ⟨hg.1.sublist (registryRemoveHandler_keys_sublist r k h),
   registryRemoveHandler_entries r k h hg.2⟩

lemma applyRegOp_good (s : WSState) (op : RegOp) (hg : goodRegistry s.subscriptions) :
    goodRegistry (applyRegOp s op).subscriptions := by
  cases op with
  | sub c h m => exact goodRegistry_add _ _ _ hg
  | unsub c h m =>
    cases h with
    | none => exact goodRegistry_delete _ _ hg
    | some h' => exact goodRegistry_removeHandler _ _ _ hg

/-! ### Claim C9: registry invariants -/

/-- C9: every sequence of subscribe and unsubscribe operations preserves
the registry invariants: subscription keys are unique (re-subscribing an
existing key updates its entry in place, with duplicate handlers
collapsed by identity), and the registry never holds an entry with an
empty handler set (removing the last handler, or a bulk unsubscribe,
deletes the entry). -/
theorem ws_registry_invariants (cfg : WSConfig) (ops : List RegOp) :
    goodRegistry ((applyRegOps (initState cfg) ops).subscriptions) := by
  have main : ∀ ops' (s : WSState), goodRegistry s.subscriptions →
      goodRegistry ((applyRegOps s ops').subscriptions) := by
    intro ops'
    induction ops' with
    | nil => intro s hs; exact hs
    | cons op rest ih => intro s hs; exact ih _ (applyRegOp_good s op hs)
  exact main ops (initState cfg) (by simp [initState, goodRegistry])

/-! ### Claim C6: disconnect does not silence an orphaned reconnect timer -/

/-- C6 fails on the code: `connect()` is called twice, both sockets
emit `'close'`, so `scheduleReconnect` runs twice and the second
`setTimeout` overwrites `reconnectTimeout` without clearing the
still-pending first timer (id 0), orphaning it.  `disconnect()` then
clears only the referenced timer (id 1) and disables reconnection, yet
the orphaned timer survives (`liveTimers = [0]`); when it fires, its
callback calls `connect()` - a reconnect attempt after `disconnect()`
returned - and once the new socket opens, heartbeat probes fire again,
contradicting the claim that no further reconnect attempt or heartbeat
probe ever fires. -/
theorem ws_disconnect_orphan_reconnect_bug :
    (let cfg : WSConfig := ⟨false, true, 5000, 10⟩
     let s1 := connectCall (connectCall (initState cfg))
     let s2 := closeEvent cfg s1
     let s3 := closeEvent cfg s2
     let d := disconnect s3
     s3.liveTimers = [0, 1] ∧ s3.reconnectTimeout = some 1 ∧
     d.liveTimers = [0] ∧ d.cfgReconnect = false ∧ d.heartbeatOn = false ∧
     (spontTrace cfg d
        [.reconnectTimerFire 0, .transportOpen, .heartbeatTick]).2 =
       [FiredAction.reconnectAttempt, FiredAction.heartbeatProbe]) := by
  decide

/-! ### Claim C5: dispatch isolates handler failures -/

/-- C5: for a data frame routed to a key whose registered handler set is
`hs`, `handleMessage` invokes every handler with the frame's payload
even when handlers raise: the number of recorded invocations equals the
number of handlers, every non-failing handler observes the payload, and
every raised handler error is re-emitted as a (non-fatal) `'error'`
event in the returned event list rather than propagated. -/
theorem ws_dispatch_isolates_failures (hbeh : Nat → String → Except String Unit)
    (s : WSState) (m : WSMessage) (hs : List Nat)
    (h1 : m.type ≠ "subscribed") (h2 : m.type ≠ "unsubscribed") (h3 : m.type ≠ "error")
    (hfind : registryFind s.subscriptions (getSubscriptionKey m.channel m.dataMarket) = some hs) :
    (handleMessage hbeh s m).2 = dispatchLoop hbeh m.payload hs ++ [ClientEvent.messageEvt] ∧
    (dispatchLoop hbeh m.payload hs).length = hs.length ∧
    (∀ h ∈ hs, hbeh h m.payload = .ok () →
      ClientEvent.handled h m.payload ∈ (handleMessage hbeh s m).2) ∧
    (∀ h ∈ hs, ∀ e, hbeh h m.payload = .error e →
      ClientEvent.handlerErrorEvt h e ∈ (handleMessage hbeh s m).2) := by
  have hev : (handleMessage hbeh s m).2 =
      dispatchLoop hbeh m.payload hs ++ [ClientEvent.messageEvt] := by
    cases hseq : m.sequence with
    | none => simp [handleMessage, h1, h2, h3, hfind, hseq]
    | some n => by_cases hn : n = 0 <;> simp [handleMessage, h1, h2, h3, hfind, hseq, hn]
  refine ⟨hev, dispatchLoop_length hbeh m.payload hs, ?_, ?_⟩
  · intro h hmem hok
    rw [hev]
    exact List.mem_append_left _ (dispatchLoop_mem_ok hbeh m.payload hs h hmem hok)
  · intro h hmem e herr
    rw [hev]
    exact List.mem_append_left _ (dispatchLoop_mem_error hbeh m.payload hs h e hmem herr)

/-- Witness for C5: a registry with handlers 1 and 2 on key `prices`,
where handler 1 raises; both handlers are still invoked and the failure
is reported as an event. -/
theorem ws_dispatch_isolates_failures_witness :
    (("update" : String) ≠ "subscribed") ∧ (("update" : String) ≠ "unsubscribed") ∧
    (("update" : String) ≠ "error") ∧
    (registryFind [("prices", [1, 2])] (getSubscriptionKey "prices" none) = some [1, 2]) ∧
    ((handleMessage (fun h _ => if h = 1 then .error "boom" else .ok ())
        { subscriptions := [("prices", [1, 2])], isConnected := true, reconnectAttempts := 0,
          heartbeatOn := true, sequenceNumber := 0, reconnectTimeout := none,
          liveTimers := [], nextTimer := 0,
          wsExists := true, wsOpen := true, cfgReconnect := true }
        ⟨"prices", "update", none, none, "pl", none⟩).2 =
      dispatchLoop (fun h _ => if h = 1 then .error "boom" else .ok ()) "pl" [1, 2] ++
        [ClientEvent.messageEvt] ∧
    (dispatchLoop (fun h _ => if h = 1 then .error "boom" else .ok ()) "pl" [1, 2]).length =
      ([1, 2] : List Nat).length ∧
    (∀ h ∈ ([1, 2] : List Nat),
      (fun h _ => if h = 1 then Except.error "boom" else Except.ok ()) h "pl" = .ok () →
      ClientEvent.handled h "pl" ∈
        (handleMessage (fun h _ => if h = 1 then .error "boom" else .ok ())
          { subscriptions := [("prices", [1, 2])], isConnected := true, reconnectAttempts := 0,
            heartbeatOn := true, sequenceNumber := 0, reconnectTimeout := none,
            liveTimers := [], nextTimer := 0,
            wsExists := true, wsOpen := true, cfgReconnect := true }
          ⟨"prices", "update", none, none, "pl", none⟩).2) ∧
    (∀ h ∈ ([1, 2] : List Nat), ∀ e,
      (fun h _ => if h = 1 then Except.error "boom" else Except.ok ()) h "pl" = .error e →
      ClientEvent.handlerErrorEvt h e ∈
        (handleMessage (fun h _ => if h = 1 then .error "boom" else .ok ())
          { subscriptions := [("prices", [1, 2])], isConnected := true, reconnectAttempts := 0,
            heartbeatOn := true, sequenceNumber := 0, reconnectTimeout := none,
            liveTimers := [], nextTimer := 0,
            wsExists := true, wsOpen := true, cfgReconnect := true }
          ⟨"prices", "update", none, none, "pl", none⟩).2)) :=
  ⟨by decide, by decide, by decide, by decide,
   ws_dispatch_isolates_failures (fun h _ => if h = 1 then .error "boom" else .ok ())
     { subscriptions := [("prices", [1, 2])], isConnected := true, reconnectAttempts := 0,
       heartbeatOn := true, sequenceNumber := 0, reconnectTimeout := none,
       liveTimers := [], nextTimer := 0,
       wsExists := true, wsOpen := true, cfgReconnect := true }
     ⟨"prices", "update", none, none, "pl", none⟩ [1, 2]
     (by decide) (by decide) (by decide) (by decide)⟩

/-! ### Claim C4: sequence counter -/

/-- Counterexample to C4 as stated: after inbound frames carrying
sequence 5 and then sequence 3, the recorded counter is 3, not the
highest value seen (5) - the update overwrites instead of taking a
maximum, so the recorded value is not monotonically non-decreasing. -/
theorem ws_sequence_not_monotone_cex :
    (let cfg : WSConfig := ⟨false, true, 5000, 10⟩
     let hbeh : Nat → String → Except String Unit := fun _ _ => .ok ()
     let s1 := (handleMessage hbeh (initState cfg) ⟨"prices", "update", none, none, "p", some 5⟩).1
     let s2 := (handleMessage hbeh s1 ⟨"prices", "update", none, none, "p", some 3⟩).1
     s1.sequenceNumber = 5 ∧ s2.sequenceNumber = 3 ∧ s2.sequenceNumber < s1.sequenceNumber) := by
  decide

/-- C4 amended: on a data frame the recorded sequence counter is
overwritten with the frame's sequence value whenever that value is
truthy (present and nonzero), and is left unchanged otherwise (control
frames, absent sequence, or sequence 0); so it equals the last truthy
value seen, which may decrease.  The counter is not used to reorder or
deduplicate: the emitted events are independent of the stored counter,
and the registry is untouched by message handling. -/
theorem ws_sequence_overwrite (hbeh : Nat → String → Except String Unit)
    (s : WSState) (m : WSMessage) (x y : Nat) :
    (handleMessage hbeh s m).1.sequenceNumber =
      (if m.type = "subscribed" ∨ m.type = "unsubscribed" ∨ m.type = "error" then
        s.sequenceNumber
       else
        match m.sequence with
        | some n => if n = 0 then s.sequenceNumber else n
        | none => s.sequenceNumber) ∧
    (handleMessage hbeh { s with sequenceNumber := x } m).2 =
      (handleMessage hbeh { s with sequenceNumber := y } m).2 ∧
    (handleMessage hbeh s m).1.subscriptions = s.subscriptions := by
  by_cases c1 : m.type = "subscribed"
  · simp [handleMessage, c1]
  · by_cases c2 : m.type = "unsubscribed"
    · simp [handleMessage, c1, c2]
    · by_cases c3 : m.type = "error"
      · simp [handleMessage, c1, c2, c3]
      · cases hseq : m.sequence with
        | none => simp [handleMessage, c1, c2, c3, hseq]
        | some n =>
          by_cases hn : n = 0 <;> simp [handleMessage, c1, c2, c3, hseq, hn]

/-! ### Claim C1: subscribe send condition -/

/-- Counterexample to C1 as stated: with the connection open and key
`prices` already holding handler 1, a second `subscribe` call for the
same key (handler 2) is not the first handler for that key, yet the
code still sends a wire-level subscribe frame. -/
theorem ws_subscribe_first_handler_cex :
    (let cfg : WSConfig := ⟨false, true, 5000, 10⟩
     let s0 := (openEvent cfg (connectCall (initState cfg))).1
     let s1 := (subscribe s0 "prices" 1 none).1
     registryFind s1.subscriptions "prices" = some [1] ∧
     (subscribe s1 "prices" 2 none).2 = [WireMsg.subMsg "prices" none]) := by
  decide

/-- C1 amended: `subscribe` always registers the handler, and sends a
wire-level subscribe frame if and only if the connection is currently
connected (the open socket matching the connected flag), regardless of
whether the handler is the first for its key; when not connected no
frame is sent and the subscription stays latent in the registry. -/
theorem ws_subscribe_sends_iff_connected (s : WSState) (channel : String) (handler : Nat)
    (market : Option String) (hws : s.wsOpen = s.isConnected) :
    (subscribe s channel handler market).2 =
      (if s.isConnected then [sendSubscribeMsg channel market] else []) ∧
    (subscribe s channel handler market).1.subscriptions =
      registryAdd s.subscriptions (getSubscriptionKey channel market) handler ∧
    (subscribe s channel handler market).1.isConnected = s.isConnected := by
  refine ⟨?_, rfl, rfl⟩
  by_cases hc : s.isConnected <;> simp [subscribe, send, hws, hc]

/-- Witness for C1's amended theorem at the freshly constructed client
(not connected): the handler is registered and no frame is sent. -/
theorem ws_subscribe_sends_iff_connected_witness :
    ((initState ⟨false, true, 5000, 10⟩).wsOpen =
      (initState ⟨false, true, 5000, 10⟩).isConnected) ∧
    ((subscribe (initState ⟨false, true, 5000, 10⟩) "prices" 1 none).2 =
      (if (initState ⟨false, true, 5000, 10⟩).isConnected
       then [sendSubscribeMsg "prices" none] else []) ∧
    (subscribe (initState ⟨false, true, 5000, 10⟩) "prices" 1 none).1.subscriptions =
      registryAdd (initState ⟨false, true, 5000, 10⟩).subscriptions
        (getSubscriptionKey "prices" none) 1 ∧
    (subscribe (initState ⟨false, true, 5000, 10⟩) "prices" 1 none).1.isConnected =
      (initState ⟨false, true, 5000, 10⟩).isConnected) :=
  ⟨rfl, ws_subscribe_sends_iff_connected (initState ⟨false, true, 5000, 10⟩) "prices" 1 none rfl⟩

/-! ### Claim C2: replay on connect -/

lemma flatMap_singleton_fn {α β : Type} (f : α → β) (l : List α) :
    (l.flatMap fun x => [f x]) = l.map f := by
  induction l <;> simp_all

lemma resubscribeAll_eq_map (s : WSState) (hws : s.wsOpen = true) :
    resubscribeAll s = s.subscriptions.map (fun e => resubscribeMsg e.1) := by
  unfold resubscribeAll
  simp only [send, hws, if_true]
  exact flatMap_singleton_fn _ _

/-- C2 amended: a successful open sends the auth control frame first
(when credentials are configured) and then exactly one subscribe frame
per registered key, in registry (snapshot) order, leaving the registry
unchanged; however `connect()` installs a fresh open handler on each
call, so a second successful `connect()` without an intervening
disconnect replays the same subscribe frames again (duplicate sends do
occur). -/
theorem ws_connect_replay (cfg : WSConfig) (s : WSState) :
    (openEvent cfg s).2 =
      (if cfg.hasAuth then [WireMsg.authMsg] else []) ++
        s.subscriptions.map (fun e => resubscribeMsg e.1) ∧
    (openEvent cfg s).1.subscriptions = s.subscriptions ∧
    (openEvent cfg (connectCall (openEvent cfg s).1)).2 =
      (if cfg.hasAuth then [WireMsg.authMsg] else []) ++
        s.subscriptions.map (fun e => resubscribeMsg e.1) := by
  refine ⟨?_, rfl, ?_⟩
  · cases ha : cfg.hasAuth <;>
      simp [openEvent, send, ha, resubscribeAll_eq_map]
  · cases ha : cfg.hasAuth <;>
      simp [openEvent, connectCall, send, ha, resubscribeAll_eq_map]

/-- Counterexample to C2 as stated: with latent subscriptions for keys
`prices` and `tradesPerps:BTC-USD.P`, the first successful connect
replays each key once and in order, but a second call to `connect()`
without an intervening disconnect replays both again - the subscribe
frame for `prices` is sent twice in total, so duplicate sends do occur. -/
theorem ws_second_connect_duplicates_cex :
    (let cfg : WSConfig := ⟨false, true, 5000, 10⟩
     let t1 := (subscribe (initState cfg) "prices" 1 none).1
     let t2 := (subscribe t1 "tradesPerps" 2 (some "BTC-USD.P")).1
     let c1 := openEvent cfg (connectCall t2)
     let c2 := openEvent cfg (connectCall c1.1)
     c1.2 = [WireMsg.subMsg "prices" none,
             WireMsg.subMsg "tradesPerps" (some "BTC-USD.P")] ∧
     c2.2 = c1.2 ∧
     (c1.2 ++ c2.2).count (WireMsg.subMsg "prices" none) = 2) := by
  decide

/-! ### Claim C3: rate-limit retry policy -/

lemma requestLoop_all429 (cfg : ReqConfig) (outcomes : Nat → AttemptOutcome)
    (path method : String) (bodies : Nat → String)
    (hout : ∀ n, outcomes n = .response 429 (bodies n) (.ok ⟨none, none⟩)) :
    ∀ fuel attempt, 1 ≤ attempt → attempt + fuel = cfg.maxRetries + 1 →
      requestLoop cfg outcomes path method attempt =
        (.apiError (.make (bodies (cfg.maxRetries + 1)) path method (some 429)
            (some (bodies (cfg.maxRetries + 1)))),
         fuel + 1,
         (List.range fuel).map (fun i => cfg.retryDelay * 2 ^ (attempt - 1 + i))) := by
  intro fuel
  induction fuel with
  | zero =>
    intro attempt h1 h2
    rw [requestLoop, hout attempt]
    dsimp only
    rw [dif_neg (by omega : ¬ ((429 : Nat) = 429 ∧ attempt ≤ cfg.maxRetries))]
    have ha : attempt = cfg.maxRetries + 1 := by omega
    subst ha
    simp [requestStep]
  | succ fuel ih =>
    intro attempt h1 h2
    rw [requestLoop, hout attempt]
    dsimp only
    rw [dif_pos (⟨rfl, by omega⟩ : ((429 : Nat) = 429 ∧ attempt ≤ cfg.maxRetries))]
    rw [ih (attempt + 1) (by omega) (by omega)]
    refine congrArg _ (congrArg _ ?_)
    have hd : backoffDelay cfg attempt = cfg.retryDelay * 2 ^ (attempt - 1 + 0) := by
      simp [backoffDelay]
    rw [List.range_succ_eq_map, List.map_cons, List.map_map, hd]
    congr 1
    apply List.map_congr_left
    intro i _
    simp only [Function.comp_apply]
    congr 2
    omega

/-- C3: against a remote side that answers 429 on every attempt, the
call is retried with delay `retryDelay * 2 ^ (attempt - 1)` after each
attempt `1 .. maxRetries`, and then fails with the `EnclaveApiError`
carrying status 429 and the last response body, after exactly
`maxRetries + 1` total attempts. -/
theorem request_rate_limit_retry (cfg : ReqConfig) (outcomes : Nat → AttemptOutcome)
    (path method : String) (bodies : Nat → String)
    (hout : ∀ n, outcomes n = .response 429 (bodies n) (.ok ⟨none, none⟩)) :
    request cfg outcomes path method =
      (.apiError (.make (bodies (cfg.maxRetries + 1)) path method (some 429)
          (some (bodies (cfg.maxRetries + 1)))),
       cfg.maxRetries + 1,
       (List.range cfg.maxRetries).map (fun i => cfg.retryDelay * 2 ^ i)) := by
  have h := requestLoop_all429 cfg outcomes path method bodies hout cfg.maxRetries 1
    (le_refl 1) (by omega)
  rw [request, h]
  simp

/-- Witness for C3 at `maxRetries = 3`, `retryDelay = 1000`: four
attempts, delays 1000, 2000, 4000, and the 429 error with the last
body. -/
theorem request_rate_limit_retry_witness :
    (∀ n : Nat, (fun _ : Nat => AttemptOutcome.response 429 "slow down" (.ok ⟨none, none⟩)) n =
      AttemptOutcome.response 429 "slow down" (.ok ⟨none, none⟩)) ∧
    request ⟨3, 1000, 30000⟩ (fun _ => .response 429 "slow down" (.ok ⟨none, none⟩))
        "/v1/markets" "GET" =
      (.apiError (.make "slow down" "/v1/markets" "GET" (some 429) (some "slow down")),
       4, [1000, 2000, 4000]) :=
  ⟨fun _ => rfl, by
    have h := request_rate_limit_retry ⟨3, 1000, 30000⟩
      (fun _ => .response 429 "slow down" (.ok ⟨none, none⟩)) "/v1/markets" "GET"
      (fun _ => "slow down") (fun _ => rfl)
    exact h⟩

/-! ### Claim C7: terminal non-success responses -/

/-- C7: a response whose status is outside 200..299 and is not 429 is
never retried: the call fails after exactly one attempt, with no
backoff delay, carrying an `EnclaveApiError` that holds the status
code, the target path and method, and whose message contains the
response body truncated to its first 200 characters with an ellipsis
marker appended exactly when the body was longer than 200 characters. -/
theorem request_non_success_terminal (cfg : ReqConfig) (outcomes : Nat → AttemptOutcome)
    (path method : String) (st : Nat) (body : String) (p : ParsedBody)
    (hout : outcomes 1 = .response st body (.ok p))
    (hst : ¬ (200 ≤ st ∧ st < 300)) (h429 : st ≠ 429) (h0 : st ≠ 0) (hb : body ≠ "") :
    request cfg outcomes path method =
      (.apiError (.make (p.errorField.getD (p.messageField.getD body)) path method (some st)
          (some body)), 1, []) ∧
    (EnclaveApiError.make (p.errorField.getD (p.messageField.getD body)) path method (some st)
        (some body)).message =
      "Enclave API Error: " ++ p.errorField.getD (p.messageField.getD body) ++ "\n" ++
      "  Endpoint: " ++ method ++ " " ++ path ++ "\n" ++
      ("  Status Code: " ++ toString st ++ "\n") ++
      ("  Response: " ++ (String.mk (body.data.take 200) ++
        if 200 < body.data.length then "..." else "")) := by
  constructor
  · rw [request, requestLoop, hout]
    dsimp only
    rw [dif_neg (by simp [h429] : ¬ (st = 429 ∧ 1 ≤ cfg.maxRetries))]
    simp [requestStep, h0, hb, hst]
  · simp [EnclaveApiError.make, enhancedMessage, truncatedResponse, h0, hb]

/-- Witness for C7: a 404 with a nonempty body fails on the first
attempt with the error carrying status, path, method, and body. -/
theorem request_non_success_terminal_witness :
    ((fun _ : Nat => AttemptOutcome.response 404 "not found" (.ok ⟨none, none⟩)) 1 =
      AttemptOutcome.response 404 "not found" (.ok ⟨none, none⟩)) ∧
    (¬ ((200 : Nat) ≤ 404 ∧ (404 : Nat) < 300)) ∧ ((404 : Nat) ≠ 429) ∧ ((404 : Nat) ≠ 0) ∧
    (("not found" : String) ≠ "") ∧
    (request ⟨3, 1000, 30000⟩ (fun _ => .response 404 "not found" (.ok ⟨none, none⟩))
        "/v1/orders" "POST" =
      (.apiError (.make ((⟨none, none⟩ : ParsedBody).errorField.getD
          ((⟨none, none⟩ : ParsedBody).messageField.getD "not found")) "/v1/orders" "POST"
          (some 404) (some "not found")), 1, []) ∧
    (EnclaveApiError.make ((⟨none, none⟩ : ParsedBody).errorField.getD
        ((⟨none, none⟩ : ParsedBody).messageField.getD "not found")) "/v1/orders" "POST"
        (some 404) (some "not found")).message =
      "Enclave API Error: " ++ (⟨none, none⟩ : ParsedBody).errorField.getD
          ((⟨none, none⟩ : ParsedBody).messageField.getD "not found") ++ "\n" ++
      "  Endpoint: " ++ "POST" ++ " " ++ "/v1/orders" ++ "\n" ++
      ("  Status Code: " ++ toString (404 : Nat) ++ "\n") ++
      ("  Response: " ++ (String.mk (("not found" : String).data.take 200) ++
        if 200 < ("not found" : String).data.length then "..." else ""))) :=
  ⟨rfl, by decide, by decide, by decide, by decide,
   request_non_success_terminal ⟨3, 1000, 30000⟩
     (fun _ => .response 404 "not found" (.ok ⟨none, none⟩)) "/v1/orders" "POST"
     404 "not found" ⟨none, none⟩ rfl (by decide) (by decide) (by decide) (by decide)⟩

/-! ### Claim C8: local timeout fails fast -/

/-- C8: a timed-out attempt rejects immediately with the timeout error:
exactly one attempt is made, no backoff delay is waited, and the call is
not re-issued with an incremented attempt number. -/
theorem request_timeout_fail_fast (cfg : ReqConfig) (outcomes : Nat → AttemptOutcome)
    (path method : String) (hout : outcomes 1 = AttemptOutcome.timeout) :
    request cfg outcomes path method = (.timedOut cfg.timeoutMs, 1, []) := by
  rw [request, requestLoop, hout]

/-- Witness for C8: a first-attempt timeout rejects at once. -/
theorem request_timeout_fail_fast_witness :
    ((fun _ : Nat => AttemptOutcome.timeout) 1 = AttemptOutcome.timeout) ∧
    request ⟨3, 1000, 30000⟩ (fun _ => AttemptOutcome.timeout) "/v1/markets" "GET" =
      (.timedOut 30000, 1, []) :=
  ⟨rfl, request_timeout_fail_fast ⟨3, 1000, 30000⟩ (fun _ => AttemptOutcome.timeout)
    "/v1/markets" "GET" rfl⟩

/-! ### Claim C10: key encode/decode round trip -/

lemma splitCharList_ne_nil (l : List Char) : splitCharList l ≠ [] := by
  induction l with
  | nil => simp [splitCharList]
  | cons c cs ih =>
    by_cases hc : c = ':'
    · simp [splitCharList, hc]
    · cases hsc : splitCharList cs with
      | nil => exact absurd hsc ih
      | cons p ps => simp [splitCharList, hc, hsc]

lemma splitCharList_no_colon (l : List Char) (h : ':' ∉ l) : splitCharList l = [l] := by
  induction l with
  | nil => rfl
  | cons c cs ih =>
    have hc : ¬ (c = ':') := by rintro rfl; exact h (List.mem_cons_self _ _)
    have hcs : ':' ∉ cs := fun hm => h (List.mem_cons_of_mem _ hm)
    simp [splitCharList, hc, ih hcs]

lemma splitCharList_append (a b : List Char) (h : ':' ∉ a) :
    splitCharList (a ++ ':' :: b) = a :: splitCharList b := by
  induction a with
  | nil => simp [splitCharList]
  | cons c cs ih =>
    have hc : ¬ (c = ':') := by rintro rfl; exact h (List.mem_cons_self _ _)
    have hcs : ':' ∉ cs := fun hm => h (List.mem_cons_of_mem _ hm)
    simp [splitCharList, hc, ih hcs]

lemma splitCharList_headD (l : List Char) :
    (splitCharList l).headD [] = l.takeWhile (fun c => c ≠ ':') := by
  induction l with
  | nil => rfl
  | cons c cs ih =>
    by_cases hc : c = ':'
    · subst hc; simp [splitCharList, List.takeWhile_cons]
    · cases hsc : splitCharList cs with
      | nil => exact absurd hsc (splitCharList_ne_nil cs)
      | cons p ps =>
        rw [hsc] at ih
        simp only [List.headD_cons] at ih
        simp [splitCharList, hc, hsc, List.takeWhile_cons, ih]

lemma takeWhile_no_colon (l : List Char) (h : ':' ∉ l) :
    l.takeWhile (fun c => c ≠ ':') = l := by
  induction l with
  | nil => rfl
  | cons c cs ih =>
    have hc : ¬ (c = ':') := by rintro rfl; exact h (List.mem_cons_self _ _)
    have hcs : ':' ∉ cs := fun hm => h (List.mem_cons_of_mem _ hm)
    simp [List.takeWhile_cons, hc, ih hcs]
    intro x hx
    rintro rfl
    exact hcs hx

theorem ws_key_roundtrip (channel m : String) (hch : ':' ∉ channel.data) (hm : m ≠ "") :
    getSubscriptionKey channel none = channel ∧
    getSubscriptionKey channel (some m) = channel ++ ":" ++ m ∧
    resubscribeMsg (getSubscriptionKey channel none) = sendSubscribeMsg channel none ∧
    resubscribeMsg (getSubscriptionKey channel (some m)) =
      sendSubscribeMsg channel (some (String.mk (m.data.takeWhile (fun c => c ≠ ':')))) ∧
    (':' ∉ m.data → resubscribeMsg (getSubscriptionKey channel (some m)) =
      sendSubscribeMsg channel (some m)) ∧
    (':' ∈ m.data → resubscribeMsg (getSubscriptionKey channel (some m)) ≠
      sendSubscribeMsg channel (some m)) := by
  have hkey2 : getSubscriptionKey channel (some m) = channel ++ ":" ++ m := by
    simp [getSubscriptionKey, hm]
  have hdata : (channel ++ ":" ++ m).data = channel.data ++ ':' :: m.data := by
    simp [String.data_append]
  have hsplit : splitCharList ((channel ++ ":" ++ m).data) =
      channel.data :: splitCharList m.data := by
    rw [hdata]; exact splitCharList_append _ _ hch
  obtain ⟨p, ps, hsc⟩ : ∃ p ps, splitCharList m.data = p :: ps := by
    cases hs : splitCharList m.data with
    | nil => exact absurd hs (splitCharList_ne_nil m.data)
    | cons p ps => exact ⟨p, ps, rfl⟩
  have hp : p = m.data.takeWhile (fun c => c ≠ ':') := by
    have := splitCharList_headD m.data
    rw [hsc] at this
    simpa using this
  have hr2 : resubscribeMsg (getSubscriptionKey channel (some m)) =
      sendSubscribeMsg channel (some (String.mk (m.data.takeWhile (fun c => c ≠ ':')))) := by
    rw [hkey2]
    show sendSubscribeMsg ((splitColon (channel ++ ":" ++ m)).headD "")
        (splitColon (channel ++ ":" ++ m))[1]? = _
    rw [splitColon, hsplit, hsc]
    simp [hp]
  have hr1 : resubscribeMsg (getSubscriptionKey channel none) =
      sendSubscribeMsg channel none := by
    show sendSubscribeMsg ((splitColon channel).headD "") (splitColon channel)[1]? = _
    rw [splitColon, splitCharList_no_colon channel.data hch]
    simp
  refine ⟨rfl, hkey2, hr1, hr2, ?_, ?_⟩
  · intro hnc
    rw [hr2, takeWhile_no_colon m.data hnc]
  · intro hcm heq
    rw [hr2] at heq
    simp only [sendSubscribeMsg, WireMsg.subMsg.injEq, true_and] at heq
    by_cases ht : String.mk (m.data.takeWhile (fun c => c ≠ ':')) = ""
    · rw [ht] at heq
      simp [marketField, hm] at heq
    · simp only [marketField, if_neg ht, if_neg hm, Option.some.injEq] at heq
      have hdataeq : m.data.takeWhile (fun c => c ≠ ':') = m.data :=
        congrArg String.data heq
      have hmem : ':' ∈ m.data.takeWhile (fun c => c ≠ ':') := by
        rw [hdataeq]; exact hcm
      have := List.mem_takeWhile_imp hmem
      simp at this

/-- Witness for C10 at channel `tradesPerps` and qualifier `a:b` (which
contains a colon): the replayed frame carries only `a`. -/
theorem ws_key_roundtrip_witness :
    (':' ∉ ("tradesPerps" : String).data) ∧ (("a:b" : String) ≠ "") ∧
    (getSubscriptionKey "tradesPerps" none = "tradesPerps" ∧
    getSubscriptionKey "tradesPerps" (some "a:b") = "tradesPerps" ++ ":" ++ "a:b" ∧
    resubscribeMsg (getSubscriptionKey "tradesPerps" none) =
      sendSubscribeMsg "tradesPerps" none ∧
    resubscribeMsg (getSubscriptionKey "tradesPerps" (some "a:b")) =
      sendSubscribeMsg "tradesPerps"
        (some (String.mk (("a:b" : String).data.takeWhile (fun c => c ≠ ':')))) ∧
    (':' ∉ ("a:b" : String).data →
      resubscribeMsg (getSubscriptionKey "tradesPerps" (some "a:b")) =
        sendSubscribeMsg "tradesPerps" (some "a:b")) ∧
    (':' ∈ ("a:b" : String).data →
      resubscribeMsg (getSubscriptionKey "tradesPerps" (some "a:b")) ≠
        sendSubscribeMsg "tradesPerps" (some "a:b"))) :=
  ⟨by decide, by decide, ws_key_roundtrip "tradesPerps" "a:b" (by decide) (by decide)⟩
